import Mathlib

/-
Verification of the wickless trading-signal engine (vnmrsignal).

Shallow embedding of the core detection and lifecycle functions:
prices are modelled as exact rationals (ℚ), candles as records, and
each TypeScript function as a computable Lean definition translated
from the source.  Field `open_` stands for the source field `open`
(a Lean keyword).
-/

namespace Wickless

inductive Direction
| BUY
| SELL
deriving DecidableEq, Repr, Inhabited

inductive Trend
| UP
| DOWN
| RANGING
deriving DecidableEq, Repr, Inhabited

inductive SetupStatus
| WAITING
| TRIGGERED
| EXPIRED
deriving DecidableEq, Repr, Inhabited

inductive Outcome
| WIN
| LOSS
| OPEN
deriving DecidableEq, Repr, Inhabited

inductive SwingType
| HIGH
| LOW
deriving DecidableEq, Repr, Inhabited

inductive Pair
| EUR_USD
| GBP_USD
| AUD_USD
| USD_JPY
| XAU_USD
deriving DecidableEq, Repr, Inhabited

inductive Timeframe
| M15
| M30
| H1
| H4
deriving DecidableEq, Repr, Inhabited

structure PairConfig where
  symbol : String
  displayName : String
  tolerance : ℚ
  slBuffer : ℚ
  pipMultiplier : ℚ
deriving DecidableEq, Repr

/-- `PAIR_CONFIGS` from `lib/config.ts`. -/
def PAIR_CONFIGS : Pair → PairConfig
  | .EUR_USD => ⟨"EUR_USD", "EUR/USD", 0.00002, 0.0002, 10000⟩
  | .GBP_USD => ⟨"GBP_USD", "GBP/USD", 0.00002, 0.0002, 10000⟩
  | .AUD_USD => ⟨"AUD_USD", "AUD/USD", 0.00002, 0.0002, 10000⟩
  | .USD_JPY => ⟨"USD_JPY", "USD/JPY", 0.002, 0.02, 100⟩
  | .XAU_USD => ⟨"XAU_USD", "Gold (XAU/USD)", 0.02, 0.20, 10⟩

def getPairConfig (pair : Pair) : PairConfig := PAIR_CONFIGS pair

def getTolerance (pair : Pair) : ℚ := (PAIR_CONFIGS pair).tolerance

def getSLBuffer (pair : Pair) : ℚ := (PAIR_CONFIGS pair).slBuffer

def getPipMultiplier (pair : Pair) : ℚ := (PAIR_CONFIGS pair).pipMultiplier

/-- Strategy constants from `STRATEGY_CONFIG` in `lib/config.ts`. -/
def SWING_LOOKBACK : ℕ := 3

def MAX_CANDLES_FOR_ENTRY : ℕ := 10

def MIN_SWING_POINTS : ℕ := 4

structure Candle where
  time : String
  open_ : ℚ
  high : ℚ
  low : ℚ
  close : ℚ
  complete : Bool
deriving DecidableEq, Repr, Inhabited

structure SwingPoint where
  index : ℕ
  time : String
  price : ℚ
  type : SwingType
deriving DecidableEq, Repr, Inhabited

structure TradeSetup where
  direction : Direction
  entryZone : ℚ
  stopLoss : ℚ
  takeProfit : ℚ
  riskPips : ℚ
  structurePoint : SwingPoint
deriving DecidableEq, Repr, Inhabited

-- ---------------------------------------------------------------------------
-- Outcome Evaluator (`checkOutcome`, lib/detection/structure.ts)
-- ---------------------------------------------------------------------------

/-- `checkOutcome` from `lib/detection/structure.ts`:
for BUY, TP hit if high ≥ TP, else SL hit if low ≤ SL;
for SELL, TP hit if low ≤ TP, else SL hit if high ≥ SL; else OPEN. -/
def checkOutcome (setup : TradeSetup) (currentHigh currentLow : ℚ) : Outcome :=
  if setup.direction = Direction.BUY then
    if setup.takeProfit ≤ currentHigh then Outcome.WIN
    else if currentLow ≤ setup.stopLoss then Outcome.LOSS
    else Outcome.OPEN
  else
    if currentLow ≤ setup.takeProfit then Outcome.WIN
    else if setup.stopLoss ≤ currentHigh then Outcome.LOSS
    else Outcome.OPEN

-- ---------------------------------------------------------------------------
-- Signal-Candle Detector (`detectWickless`, lib/detection/wickless.ts)
-- ---------------------------------------------------------------------------

structure WicklessResult where
  isValid : Bool
  direction : Option Direction
  entryZone : Option ℚ
  candle : Option Candle
deriving DecidableEq, Repr

/-- The "no valid signal" record returned by `detectWickless`. -/
def noSignal : WicklessResult := ⟨false, none, none, none⟩

/-- `detectWickless` from `lib/detection/wickless.ts`.  Rejects RANGING
trends and doji bodies, then checks the bullish no-bottom-wick (UP) and
bearish no-top-wick (DOWN) conditions. -/
def detectWickless (candle : Candle) (pair : Pair) (trend : Trend) : WicklessResult :=
  if trend = Trend.RANGING then noSignal
  else
    let tolerance := getTolerance pair
    let bodySize := |candle.close - candle.open_|
    if bodySize < tolerance then noSignal
    else if trend = Trend.UP ∧ candle.open_ < candle.close ∧
        candle.open_ - tolerance ≤ candle.low then
      ⟨true, some Direction.BUY, some candle.low, some candle⟩
    else if trend = Trend.DOWN ∧ candle.close < candle.open_ ∧
        candle.high ≤ candle.open_ + tolerance then
      ⟨true, some Direction.SELL, some candle.high, some candle⟩
    else noSignal

-- ---------------------------------------------------------------------------
-- Setup validation (`validateSetup`, lib/detection/structure.ts)
-- ---------------------------------------------------------------------------

structure ValidationResult where
  valid : Bool
  reason : String
deriving DecidableEq, Repr

/-- `validateSetup` from `lib/detection/structure.ts`: risk-band check
(in pips) followed by ordering checks of entry against stop and target.
Total function — validation failures are returned as tagged values with
a reason string, never thrown. -/
def validateSetup (setup : TradeSetup) (pair : Pair)
    (minPips : ℚ := 5) (maxPips : ℚ := 50) : ValidationResult :=
  if setup.riskPips < minPips then
    ⟨false, "Risk too small: " ++ toString setup.riskPips ++
      " pips (min: " ++ toString minPips ++ ")"⟩
  else if maxPips < setup.riskPips then
    ⟨false, "Risk too large: " ++ toString setup.riskPips ++
      " pips (max: " ++ toString maxPips ++ ")"⟩
  else if setup.direction = Direction.BUY then
    if setup.entryZone ≤ setup.stopLoss then
      ⟨false, "Entry must be above Stop Loss for BUY"⟩
    else if setup.takeProfit ≤ setup.entryZone then
      ⟨false, "Entry must be below Take Profit for BUY"⟩
    else ⟨true, "Setup is valid"⟩
  else
    if setup.stopLoss ≤ setup.entryZone then
      ⟨false, "Entry must be below Stop Loss for SELL"⟩
    else if setup.entryZone ≤ setup.takeProfit then
      ⟨false, "Entry must be above Take Profit for SELL"⟩
    else ⟨true, "Setup is valid"⟩

/-- The ordering condition checked by `validateSetup`: the entry sits
strictly between stop and target for the setup's direction. -/
def entryBetween (setup : TradeSetup) : Prop :=
  match setup.direction with
  | Direction.BUY => setup.stopLoss < setup.entryZone ∧ setup.entryZone < setup.takeProfit
  | Direction.SELL => setup.takeProfit < setup.entryZone ∧ setup.entryZone < setup.stopLoss

-- ---------------------------------------------------------------------------
-- Swing Point Detector (lib/detection/swingPoints.ts)
-- ---------------------------------------------------------------------------

/-- Swing-high test of the inner loop of `findSwingPoints`: the high at
index `i` must be strictly greater than the highs of the `lookback`
candles on each side (the source rejects on
`leftCandle.high >= current.high || rightCandle.high >= current.high`). -/
def isSwingHigh (candles : List Candle) (lookback i : ℕ) : Bool :=
  (List.range lookback).all fun j =>
    decide ((candles.getD (i - (j + 1)) default).high < (candles.getD i default).high) &&
    decide ((candles.getD (i + (j + 1)) default).high < (candles.getD i default).high)

/-- Swing-low test of the inner loop of `findSwingPoints`. -/
def isSwingLow (candles : List Candle) (lookback i : ℕ) : Bool :=
  (List.range lookback).all fun j =>
    decide ((candles.getD i default).low < (candles.getD (i - (j + 1)) default).low) &&
    decide ((candles.getD i default).low < (candles.getD (i + (j + 1)) default).low)

/-- One iteration of the `findSwingPoints` loop: the entries pushed for
index `i` (a HIGH entry, then a LOW entry, each when its test passes). -/
def swingEntries (candles : List Candle) (lookback i : ℕ) : List SwingPoint :=
  let current := candles.getD i default
  (if isSwingHigh candles lookback i then
    [⟨i, current.time, current.high, SwingType.HIGH⟩] else []) ++
  (if isSwingLow candles lookback i then
    [⟨i, current.time, current.low, SwingType.LOW⟩] else [])

/-- `findSwingPoints` from `lib/detection/swingPoints.ts`: scans indices
`lookback ≤ i < candles.length - lookback`, empty below `2*lookback+1`
candles.  The source pushes entries in increasing index order and then
applies a stable sort by index, which is the identity permutation on
that list, so the sort is omitted here. -/
def findSwingPoints (candles : List Candle) (lookback : ℕ := SWING_LOOKBACK) :
    List SwingPoint :=
  if candles.length < lookback * 2 + 1 then []
  else (List.range' lookback (candles.length - 2 * lookback)).flatMap
    (swingEntries candles lookback)

def findSwingHighs (candles : List Candle) (lookback : ℕ := SWING_LOOKBACK) :
    List SwingPoint :=
  (findSwingPoints candles lookback).filter fun s => s.type = SwingType.HIGH

def findSwingLows (candles : List Candle) (lookback : ℕ := SWING_LOOKBACK) :
    List SwingPoint :=
  (findSwingPoints candles lookback).filter fun s => s.type = SwingType.LOW

/-- `highs.length > 0 ? highs[highs.length - 1] : null`. -/
def getMostRecentSwingHigh (candles : List Candle) (lookback : ℕ := SWING_LOOKBACK) :
    Option SwingPoint :=
  (findSwingHighs candles lookback).getLast?

def getMostRecentSwingLow (candles : List Candle) (lookback : ℕ := SWING_LOOKBACK) :
    Option SwingPoint :=
  (findSwingLows candles lookback).getLast?

/-- `isHigherHigh` from `lib/detection/swingPoints.ts`.  The source
throws when either argument is not a HIGH; at the modelled call sites
both arguments come from a HIGH-filtered list, so the guard never fires
and only the comparison is modelled.  Same for the three companions. -/
def isHigherHigh (current previous : SwingPoint) : Bool :=
  previous.price < current.price

def isHigherLow (current previous : SwingPoint) : Bool :=
  previous.price < current.price

def isLowerHigh (current previous : SwingPoint) : Bool :=
  current.price < previous.price

def isLowerLow (current previous : SwingPoint) : Bool :=
  current.price < previous.price

structure SwingRelationships where
  highs : List SwingPoint
  lows : List SwingPoint
  hasHigherHigh : Option Bool
  hasHigherLow : Option Bool
  hasLowerHigh : Option Bool
  hasLowerLow : Option Bool
deriving DecidableEq, Repr

/-- JS `array.slice(-2)`: the last two elements. -/
def lastTwo (l : List SwingPoint) : List SwingPoint := l.drop (l.length - 2)

/-- `getSwingRelationships` from `lib/detection/swingPoints.ts`: the last
two HIGHs and LOWs, with the four comparison flags (`null`, modelled as
`none`, when fewer than two of the kind exist). -/
def getSwingRelationships (candles : List Candle) (lookback : ℕ := SWING_LOOKBACK) :
    SwingRelationships :=
  let swings := findSwingPoints candles lookback
  let highs := lastTwo (swings.filter fun s => s.type = SwingType.HIGH)
  let lows := lastTwo (swings.filter fun s => s.type = SwingType.LOW)
  { highs := highs
    lows := lows
    hasHigherHigh := if 2 ≤ highs.length then
        some (isHigherHigh (highs.getD 1 default) (highs.getD 0 default)) else none
    hasHigherLow := if 2 ≤ lows.length then
        some (isHigherLow (lows.getD 1 default) (lows.getD 0 default)) else none
    hasLowerHigh := if 2 ≤ highs.length then
        some (isLowerHigh (highs.getD 1 default) (highs.getD 0 default)) else none
    hasLowerLow := if 2 ≤ lows.length then
        some (isLowerLow (lows.getD 1 default) (lows.getD 0 default)) else none }

/-- `getStructureForSL`: most recent swing LOW for BUY, most recent swing
HIGH for SELL. -/
def getStructureForSL (candles : List Candle) (direction : Direction)
    (lookback : ℕ := SWING_LOOKBACK) : Option SwingPoint :=
  match direction with
  | Direction.BUY => getMostRecentSwingLow candles lookback
  | Direction.SELL => getMostRecentSwingHigh candles lookback

def hasEnoughSwingPoints (candles : List Candle) (lookback : ℕ := SWING_LOOKBACK)
    (minRequired : ℕ := MIN_SWING_POINTS) : Bool :=
  minRequired ≤ (findSwingPoints candles lookback).length

-- ---------------------------------------------------------------------------
-- Trend Classifier (`classifyTrend`, lib/detection/trend.ts)
-- ---------------------------------------------------------------------------

/-- `classifyTrend` from `lib/detection/trend.ts`: RANGING below the
minimum swing-point count, UP iff higher high and higher low, DOWN iff
lower high and lower low, RANGING otherwise. -/
def classifyTrend (candles : List Candle) (lookback : ℕ := SWING_LOOKBACK) : Trend :=
  if ¬ hasEnoughSwingPoints candles lookback then Trend.RANGING
  else
    let r := getSwingRelationships candles lookback
    if r.hasHigherHigh = some true ∧ r.hasHigherLow = some true then Trend.UP
    else if r.hasLowerHigh = some true ∧ r.hasLowerLow = some true then Trend.DOWN
    else Trend.RANGING

-- ---------------------------------------------------------------------------
-- Setup Calculator (`calculateTradeSetup`, lib/detection/structure.ts)
-- ---------------------------------------------------------------------------

/-- `calculateTradeSetup` from `lib/detection/structure.ts`: anchors the
stop at the structure point minus (BUY) / plus (SELL) the pair's buffer
and mirrors the risk distance for the 1:1 take-profit. -/
def calculateTradeSetup (direction : Direction) (entryZone : ℚ)
    (candles : List Candle) (pair : Pair) : Option TradeSetup :=
  let buffer := getSLBuffer pair
  match getStructureForSL candles direction with
  | none => none
  | some structurePoint =>
    match direction with
    | Direction.BUY =>
      let stopLoss := structurePoint.price - buffer
      let risk := entryZone - stopLoss
      let takeProfit := entryZone + risk
      let riskPips := risk * getPipMultiplier pair
      some ⟨direction, entryZone, stopLoss, takeProfit, riskPips, structurePoint⟩
    | Direction.SELL =>
      let stopLoss := structurePoint.price + buffer
      let risk := stopLoss - entryZone
      let takeProfit := entryZone - risk
      let riskPips := risk * getPipMultiplier pair
      some ⟨direction, entryZone, stopLoss, takeProfit, riskPips, structurePoint⟩

-- ---------------------------------------------------------------------------
-- Retracement Monitor (lib/signals/retracement.ts)
-- ---------------------------------------------------------------------------

structure RetracementCheck where
  triggered : Bool
  entryPrice : Option ℚ
  triggerCandle : Option Candle
  candlesElapsed : ℕ
deriving DecidableEq, Repr

/-- The scanning loop of `checkRetracement`; `i` counts the candles
already consumed (complete or not).  Incomplete candles are skipped for
the trigger test but still advance the count; the two direction branches
of the source return the identical triggered record, factored here into
one branch on the direction-specific condition. -/
def checkRetracementLoop (direction : Direction) (entryZone : ℚ) :
    List Candle → ℕ → RetracementCheck
  | [], i => ⟨false, none, none, i⟩
  | candle :: rest, i =>
    if ¬ candle.complete then checkRetracementLoop direction entryZone rest (i + 1)
    else if (match direction with
      | Direction.BUY => decide (candle.low ≤ entryZone)
      | Direction.SELL => decide (entryZone ≤ candle.high)) then
      ⟨true, some entryZone, some candle, i + 1⟩
    else checkRetracementLoop direction entryZone rest (i + 1)

/-- `checkRetracement` from `lib/signals/retracement.ts`: scans only the
first `MAX_CANDLES_FOR_ENTRY` subsequent candles. -/
def checkRetracement (direction : Direction) (entryZone : ℚ)
    (subsequentCandles : List Candle) : RetracementCheck :=
  checkRetracementLoop direction entryZone
    (subsequentCandles.take MAX_CANDLES_FOR_ENTRY) 0

/-- `isSetupExpired`: 10 or more candles elapsed without entry. -/
def isSetupExpired (candlesElapsed : ℕ) : Bool :=
  MAX_CANDLES_FOR_ENTRY ≤ candlesElapsed

/-- The per-candle trigger condition of the Retracement Monitor:
BUY triggers iff the candle's low reaches down to the entry zone,
SELL iff its high reaches up to it. -/
def retracementHit (direction : Direction) (entryZone : ℚ) (candle : Candle) : Prop :=
  match direction with
  | Direction.BUY => candle.low ≤ entryZone
  | Direction.SELL => entryZone ≤ candle.high

/-- `ActiveSetup` from `lib/types/types.ts` (lifecycle entity). -/
structure ActiveSetup where
  id : String
  pair : Pair
  timeframe : Timeframe
  direction : Direction
  signalCandleTime : String
  signalCandleOpen : ℚ
  signalCandleHigh : ℚ
  signalCandleLow : ℚ
  signalCandleClose : ℚ
  entryZone : ℚ
  stopLoss : ℚ
  takeProfit : ℚ
  candlesElapsed : ℕ
  status : SetupStatus
  createdAt : String
deriving DecidableEq, Repr, Inhabited

/-- The categorized result of `monitorSetups`. -/
structure MonitorResult where
  triggered : List ActiveSetup
  expired : List ActiveSetup
  stillActive : List ActiveSetup
deriving DecidableEq, Repr

/-- The loop body of `monitorSetups`: skips non-WAITING setups, then
increments the candle count and routes the setup to triggered / expired /
stillActive (trigger check first).  `setup.candlesElapsed + 1` inlines
the source's `newCandlesElapsed`. -/
def monitorStep (newCandle : Candle) (acc : MonitorResult) (setup : ActiveSetup) :
    MonitorResult :=
  if setup.status ≠ SetupStatus.WAITING then acc
  else if (match setup.direction with
    | Direction.BUY => decide (newCandle.low ≤ setup.entryZone)
    | Direction.SELL => decide (setup.entryZone ≤ newCandle.high)) then
    { acc with triggered := acc.triggered ++
        [{ setup with
            candlesElapsed := setup.candlesElapsed + 1
            status := SetupStatus.TRIGGERED }] }
  else if isSetupExpired (setup.candlesElapsed + 1) then
    { acc with expired := acc.expired ++
        [{ setup with
            candlesElapsed := setup.candlesElapsed + 1
            status := SetupStatus.EXPIRED }] }
  else
    { acc with stillActive := acc.stillActive ++
        [{ setup with candlesElapsed := setup.candlesElapsed + 1 }] }

/-- `monitorSetups` from `lib/signals/retracement.ts`. -/
def monitorSetups (setups : List ActiveSetup) (newCandle : Candle) : MonitorResult :=
  setups.foldl (monitorStep newCandle) ⟨[], [], []⟩

/-- The trigger condition of `monitorSetups` for one setup. -/
def triggerCondition (setup : ActiveSetup) (candle : Candle) : Prop :=
  match setup.direction with
  | Direction.BUY => candle.low ≤ setup.entryZone
  | Direction.SELL => setup.entryZone ≤ candle.high

instance (setup : ActiveSetup) (candle : Candle) :
    Decidable (triggerCondition setup candle) := by
  unfold triggerCondition
  cases setup.direction <;> exact inferInstance

instance (direction : Direction) (entryZone : ℚ) (candle : Candle) :
    Decidable (retracementHit direction entryZone candle) := by
  unfold retracementHit
  cases direction <;> exact inferInstance

/-- The image of a WAITING setup that a triggering candle sends to the
`triggered` list (count incremented, status TRIGGERED); `none` for every
other setup.  No expiry condition: the trigger check comes first. -/
def triggeredUpdate (newCandle : Candle) (s : ActiveSetup) : Option ActiveSetup :=
  if s.status = SetupStatus.WAITING ∧ triggerCondition s newCandle then
    some { s with
      candlesElapsed := s.candlesElapsed + 1
      status := SetupStatus.TRIGGERED }
  else none

/-- The image of a WAITING, non-triggered setup whose incremented count
reaches `MAX_CANDLES_FOR_ENTRY` (sent to `expired`). -/
def expiredUpdate (newCandle : Candle) (s : ActiveSetup) : Option ActiveSetup :=
  if s.status = SetupStatus.WAITING ∧ ¬ triggerCondition s newCandle ∧
      MAX_CANDLES_FOR_ENTRY ≤ s.candlesElapsed + 1 then
    some { s with
      candlesElapsed := s.candlesElapsed + 1
      status := SetupStatus.EXPIRED }
  else none

/-- The image of a WAITING, non-triggered, non-expired setup (stays
WAITING with the incremented count). -/
def stillActiveUpdate (newCandle : Candle) (s : ActiveSetup) : Option ActiveSetup :=
  if s.status = SetupStatus.WAITING ∧ ¬ triggerCondition s newCandle ∧
      s.candlesElapsed + 1 < MAX_CANDLES_FOR_ENTRY then
    some { s with candlesElapsed := s.candlesElapsed + 1 }
  else none

/-- The last two swing HIGHs, as selected inside `getSwingRelationships`. -/
def lastTwoHighs (candles : List Candle) (lookback : ℕ) : List SwingPoint :=
  lastTwo ((findSwingPoints candles lookback).filter fun s => s.type = SwingType.HIGH)

/-- The last two swing LOWs, as selected inside `getSwingRelationships`. -/
def lastTwoLows (candles : List Candle) (lookback : ℕ) : List SwingPoint :=
  lastTwo ((findSwingPoints candles lookback).filter fun s => s.type = SwingType.LOW)

/-- The uptrend structure tested by `classifyTrend`: two swing highs and
two swing lows exist, the latest high is strictly above the previous
high, and the latest low is strictly above the previous low. -/
def higherHighsAndLows (candles : List Candle) (lookback : ℕ) : Prop :=
  2 ≤ (lastTwoHighs candles lookback).length ∧
  2 ≤ (lastTwoLows candles lookback).length ∧
  ((lastTwoHighs candles lookback).getD 0 default).price <
    ((lastTwoHighs candles lookback).getD 1 default).price ∧
  ((lastTwoLows candles lookback).getD 0 default).price <
    ((lastTwoLows candles lookback).getD 1 default).price

/-- The downtrend structure tested by `classifyTrend`. -/
def lowerHighsAndLows (candles : List Candle) (lookback : ℕ) : Prop :=
  2 ≤ (lastTwoHighs candles lookback).length ∧
  2 ≤ (lastTwoLows candles lookback).length ∧
  ((lastTwoHighs candles lookback).getD 1 default).price <
    ((lastTwoHighs candles lookback).getD 0 default).price ∧
  ((lastTwoLows candles lookback).getD 1 default).price <
    ((lastTwoLows candles lookback).getD 0 default).price

-- ---------------------------------------------------------------------------
-- Signal Manager (in-memory, lib/signals/manager.ts)
-- ---------------------------------------------------------------------------

/-- `Signal` from `lib/types/types.ts` (triggered entry entity). -/
structure Signal where
  id : String
  setupId : String
  pair : Pair
  timeframe : Timeframe
  direction : Direction
  entryPrice : ℚ
  stopLoss : ℚ
  takeProfit : ℚ
  entryTime : String
  outcome : Option Outcome
  outcomeTime : Option String
  createdAt : String
deriving DecidableEq, Repr, Inhabited

/-- `createSignal` from the signal manager.  `generateId()` and
`new Date().toISOString()` are nondeterministic (clock and randomness);
they are passed in as the `id` and `createdAt` parameters. -/
def createSignal (setup : ActiveSetup) (entryTime : String)
    (id createdAt : String) : Signal :=
  ⟨id, setup.id, setup.pair, setup.timeframe, setup.direction, setup.entryZone,
   setup.stopLoss, setup.takeProfit, entryTime, none, none, createdAt⟩

/-- A JS `Map` keyed by string, modelled as an association list in
insertion order (matching `Map` iteration order). -/
def mapSet {α : Type} (m : List (String × α)) (k : String) (v : α) :
    List (String × α) :=
  if m.any (fun p => p.1 = k) then
    m.map (fun p => if p.1 = k then (k, v) else p)
  else m ++ [(k, v)]

def mapDelete {α : Type} (m : List (String × α)) (k : String) :
    List (String × α) :=
  m.filter (fun p => ¬ p.1 = k)

/-- `Array.from(map.values())`. -/
def mapValues {α : Type} (m : List (String × α)) : List α := m.map (fun p => p.2)

/-- The mutable state of the in-memory `SignalManager` class. -/
structure SignalManager where
  activeSetups : List (String × ActiveSetup)
  triggeredSignals : List (String × Signal)
  expiredSetups : List ActiveSetup
  completedSignals : List Signal
deriving DecidableEq, Repr

def emptyManager : SignalManager := ⟨[], [], [], []⟩

/-- `SignalManager.addSetup`. -/
def addSetup (m : SignalManager) (setup : ActiveSetup) : SignalManager :=
  { m with activeSetups := mapSet m.activeSetups setup.id setup }

/-- `SignalManager.getActiveSetups`. -/
def getActiveSetups (m : SignalManager) : List ActiveSetup :=
  mapValues m.activeSetups

/-- `SignalManager.hasExistingSetup`: scans only the current
`activeSetups` map for the `(pair, signalCandleTime)` key. -/
def hasExistingSetup (m : SignalManager) (pair : Pair)
    (signalCandleTime : String) : Bool :=
  (getActiveSetups m).any fun s =>
    s.pair = pair ∧ s.signalCandleTime = signalCandleTime

/-- Return value of `SignalManager.processNewCandle`, together with the
mutated manager (explicit state passing). -/
structure ProcessNewCandleResult where
  manager : SignalManager
  triggered : List Signal
  expired : List ActiveSetup
  stillActive : List ActiveSetup
deriving DecidableEq, Repr

/-- `SignalManager.processNewCandle`: feeds the candle to all WAITING
setups of the pair/timeframe via `monitorSetups`; each triggered setup
is written back, converted to a `Signal`, and deleted from the active
map (net effect: removed); each expired setup is appended to
`expiredSetups` and deleted; still-active setups are written back.
`genId n` supplies the id of the n-th signal created during the call
(modelling `generateId()`), `now` the creation timestamp. -/
def processNewCandle (m : SignalManager) (pair : Pair) (timeframe : Timeframe)
    (candle : Candle) (genId : ℕ → String) (now : String) :
    ProcessNewCandleResult :=
  let relevantSetups := (getActiveSetups m).filter fun s =>
    s.pair = pair ∧ s.timeframe = timeframe ∧ s.status = SetupStatus.WAITING
  let result := monitorSetups relevantSetups candle
  let afterTrig := result.triggered.foldl
    (fun (acc : SignalManager × List Signal × ℕ) setup =>
      let st1 := { acc.1 with
        activeSetups := mapSet acc.1.activeSetups setup.id setup }
      let signal := createSignal setup candle.time (genId acc.2.2) now
      let st2 := { st1 with
        triggeredSignals := mapSet st1.triggeredSignals signal.id signal }
      let st3 := { st2 with
        activeSetups := mapDelete st2.activeSetups setup.id }
      (st3, acc.2.1 ++ [signal], acc.2.2 + 1))
    (m, [], 0)
  let afterExp := result.expired.foldl
    (fun st setup =>
      { st with
        expiredSetups := st.expiredSetups ++ [setup]
        activeSetups := mapDelete st.activeSetups setup.id })
    afterTrig.1
  let afterAct := result.stillActive.foldl
    (fun st setup =>
      { st with activeSetups := mapSet st.activeSetups setup.id setup })
    afterExp
  ⟨afterAct, afterTrig.2.1, result.expired, result.stillActive⟩

-- ---------------------------------------------------------------------------
-- Concrete candle lists used in witnesses and counterexamples
-- ---------------------------------------------------------------------------

/-- A WAITING BUY setup (entryZone 1) used in the manager scenario. -/
def demoSetup : ActiveSetup :=
  ⟨"setup-1", Pair.EUR_USD, Timeframe.M15, Direction.BUY, "2024-01-01T00:00:00Z",
   2, 4, 1, 3, 1, 0, 2, 0, SetupStatus.WAITING, "2024-01-01T00:15:00Z"⟩

/-- A candle whose low reaches demoSetup's entry zone (triggers it). -/
def demoTriggerCandle : Candle := ⟨"2024-01-01T00:30:00Z", 2, 3, 1, 2, true⟩

def demoGenId : ℕ → String := fun _ => "sig-1"

/-- Seven complete candles whose only swing point is a swing LOW of
price 1 at index 3 (all highs are equal, so no swing HIGH exists). -/
def candlesSwingLowOnly : List Candle :=
  [⟨"t0", 50, 100, 10, 50, true⟩, ⟨"t1", 50, 100, 9, 50, true⟩,
   ⟨"t2", 50, 100, 8, 50, true⟩, ⟨"t3", 50, 100, 1, 50, true⟩,
   ⟨"t4", 50, 100, 8, 50, true⟩, ⟨"t5", 50, 100, 9, 50, true⟩,
   ⟨"t6", 50, 100, 10, 50, true⟩]

/-- Three candles whose middle candle is simultaneously a swing HIGH and
a swing LOW for lookback 1. -/
def candlesBothSwing : List Candle :=
  [⟨"a", 0, 5, 3, 0, true⟩, ⟨"b", 0, 9, 1, 0, true⟩, ⟨"c", 0, 5, 3, 0, true⟩]

-- ---------------------------------------------------------------------------
-- Theorems
-- ---------------------------------------------------------------------------

theorem swingEntries_index (candles : List Candle) (lookback i : ℕ) :
    ∀ x ∈ swingEntries candles lookback i, x.index = i := by
  intro x hx
  unfold swingEntries at hx
  rcases List.mem_append.mp hx with h | h <;> (split at h <;> simp_all)

theorem findSwingPoints_pairwise (candles : List Candle) (lookback : ℕ) :
    List.Pairwise (fun a b : SwingPoint => a.index ≤ b.index)
      (findSwingPoints candles lookback) := by
  unfold findSwingPoints
  split
  · simp
  · rw [show (List.range' lookback (candles.length - 2 * lookback)).flatMap
        (swingEntries candles lookback) =
        ((List.range' lookback (candles.length - 2 * lookback)).map
          (swingEntries candles lookback)).flatten from rfl]
    rw [List.pairwise_flatten]
    refine ⟨?_, ?_⟩
    · intro l' hl'
      rcases List.mem_map.mp hl' with ⟨i, _, rfl⟩
      unfold swingEntries
      split_ifs <;> simp
    · rw [List.pairwise_map]
      refine (List.pairwise_lt_range' lookback _).imp ?_
      intro a b hab x hx y hy
      rw [swingEntries_index candles lookback a x hx,
        swingEntries_index candles lookback b y hy]
      omega

theorem findSwingPoints_mem_spec (candles : List Candle) (lookback : ℕ)
    (s : SwingPoint) (hs : s ∈ findSwingPoints candles lookback) :
    lookback ≤ s.index ∧ s.index + lookback < candles.length ∧
    (s.type = SwingType.HIGH →
      s.price = (candles.getD s.index default).high ∧
      ∀ j, 1 ≤ j → j ≤ lookback →
        (candles.getD (s.index - j) default).high < (candles.getD s.index default).high ∧
        (candles.getD (s.index + j) default).high < (candles.getD s.index default).high) ∧
    (s.type = SwingType.LOW →
      s.price = (candles.getD s.index default).low ∧
      ∀ j, 1 ≤ j → j ≤ lookback →
        (candles.getD s.index default).low < (candles.getD (s.index - j) default).low ∧
        (candles.getD s.index default).low < (candles.getD (s.index + j) default).low) := by
  unfold findSwingPoints at hs
  split at hs
  · exact absurd hs (List.not_mem_nil s)
  · next hlen =>
    rcases List.mem_flatMap.mp hs with ⟨i, hi, hsi⟩
    rcases List.mem_range'_1.mp hi with ⟨h1, h2⟩
    unfold swingEntries at hsi
    rcases List.mem_append.mp hsi with h | h
    · by_cases hH : isSwingHigh candles lookback i = true
      · rw [if_pos hH] at h
        rcases List.mem_singleton.mp h with rfl
        have hall : ∀ j ∈ List.range lookback,
            (candles.getD (i - (j + 1)) default).high < (candles.getD i default).high ∧
            (candles.getD (i + (j + 1)) default).high < (candles.getD i default).high := by
          simpa [isSwingHigh, List.all_eq_true, Bool.and_eq_true, decide_eq_true_iff]
            using hH
        refine ⟨h1, show i + lookback < candles.length by omega,
          fun _ => ⟨rfl, ?_⟩, by simp⟩
        intro j hj1 hj2
        have := hall (j - 1) (List.mem_range.mpr (by omega))
        rw [show j - 1 + 1 = j from by omega] at this
        exact this
      · rw [if_neg hH] at h
        exact absurd h (List.not_mem_nil s)
    · by_cases hL : isSwingLow candles lookback i = true
      · rw [if_pos hL] at h
        rcases List.mem_singleton.mp h with rfl
        have hall : ∀ j ∈ List.range lookback,
            (candles.getD i default).low < (candles.getD (i - (j + 1)) default).low ∧
            (candles.getD i default).low < (candles.getD (i + (j + 1)) default).low := by
          simpa [isSwingLow, List.all_eq_true, Bool.and_eq_true, decide_eq_true_iff]
            using hL
        refine ⟨h1, show i + lookback < candles.length by omega,
          by simp, fun _ => ⟨rfl, ?_⟩⟩
        intro j hj1 hj2
        have := hall (j - 1) (List.mem_range.mpr (by omega))
        rw [show j - 1 + 1 = j from by omega] at this
        exact this
      · rw [if_neg hL] at h
        exact absurd h (List.not_mem_nil s)

theorem findSwingPoints_short (candles : List Candle) (lookback : ℕ)
    (h : candles.length < 2 * lookback + 1) :
    findSwingPoints candles lookback = [] := by
  unfold findSwingPoints
  rw [if_pos (by omega)]

/-- C7: `findSwingPoints` output is sorted by index ascending; every
HIGH (resp. LOW) entry's high (low) is strictly greater (less) than the
highs (lows) of all `lookback` candles on each side; the output is empty
below `2*lookback+1` candles; and a single candle can be both a HIGH and
a LOW (witnessed by `candlesBothSwing` at lookback 1). -/
theorem C7_findSwingPoints_spec :
    (∀ (candles : List Candle) (lookback : ℕ),
      List.Pairwise (fun a b : SwingPoint => a.index ≤ b.index)
        (findSwingPoints candles lookback)) ∧
    (∀ (candles : List Candle) (lookback : ℕ) (s : SwingPoint),
      s ∈ findSwingPoints candles lookback →
      lookback ≤ s.index ∧ s.index + lookback < candles.length ∧
      (s.type = SwingType.HIGH →
        s.price = (candles.getD s.index default).high ∧
        ∀ j, 1 ≤ j → j ≤ lookback →
          (candles.getD (s.index - j) default).high < (candles.getD s.index default).high ∧
          (candles.getD (s.index + j) default).high < (candles.getD s.index default).high) ∧
      (s.type = SwingType.LOW →
        s.price = (candles.getD s.index default).low ∧
        ∀ j, 1 ≤ j → j ≤ lookback →
          (candles.getD s.index default).low < (candles.getD (s.index - j) default).low ∧
          (candles.getD s.index default).low < (candles.getD (s.index + j) default).low)) ∧
    (∀ (candles : List Candle) (lookback : ℕ),
      candles.length < 2 * lookback + 1 → findSwingPoints candles lookback = []) ∧
    ((⟨1, "b", 9, SwingType.HIGH⟩ : SwingPoint) ∈ findSwingPoints candlesBothSwing 1 ∧
     (⟨1, "b", 1, SwingType.LOW⟩ : SwingPoint) ∈ findSwingPoints candlesBothSwing 1) :=
  ⟨findSwingPoints_pairwise, findSwingPoints_mem_spec, findSwingPoints_short, by decide⟩

/-- Witness for C7: the emptiness clause applied at a concrete short
list (two candles, lookback 3), and the both-HIGH-and-LOW clause at
`candlesBothSwing`. -/
theorem C7_findSwingPoints_spec_witness :
    findSwingPoints [⟨"x", 1, 2, 0, 1, true⟩, ⟨"y", 1, 2, 0, 1, true⟩] 3 = [] :=
  C7_findSwingPoints_spec.2.2.1 [⟨"x", 1, 2, 0, 1, true⟩, ⟨"y", 1, 2, 0, 1, true⟩] 3
    (by decide)

/-- C8: `classifyTrend` returns RANGING below the minimum swing-point
count (4); otherwise UP iff the latest swing high and low both strictly
exceed their predecessors, DOWN iff both are strictly lower, and RANGING
in every other case (including fewer than two highs or lows, equal
consecutive swings, or mixed signals). -/
theorem C8_classifyTrend_spec (candles : List Candle) (lookback : ℕ) :
    ((findSwingPoints candles lookback).length < MIN_SWING_POINTS →
      classifyTrend candles lookback = Trend.RANGING) ∧
    (MIN_SWING_POINTS ≤ (findSwingPoints candles lookback).length →
      ((classifyTrend candles lookback = Trend.UP ↔
          higherHighsAndLows candles lookback) ∧
       (classifyTrend candles lookback = Trend.DOWN ↔
          lowerHighsAndLows candles lookback) ∧
       (classifyTrend candles lookback = Trend.RANGING ↔
          ¬ higherHighsAndLows candles lookback ∧
          ¬ lowerHighsAndLows candles lookback))) := by
  constructor
  · intro h
    unfold classifyTrend
    rw [if_pos]
    simp only [hasEnoughSwingPoints, decide_eq_true_eq]
    omega
  · intro h
    have he : hasEnoughSwingPoints candles lookback = true := by
      simpa [hasEnoughSwingPoints] using h
    have hup : ((getSwingRelationships candles lookback).hasHigherHigh = some true ∧
        (getSwingRelationships candles lookback).hasHigherLow = some true) ↔
        higherHighsAndLows candles lookback := by
      simp only [getSwingRelationships, higherHighsAndLows, isHigherHigh,
        isHigherLow, lastTwoHighs, lastTwoLows]
      split_ifs <;> simp_all
    have hdown : ((getSwingRelationships candles lookback).hasLowerHigh = some true ∧
        (getSwingRelationships candles lookback).hasLowerLow = some true) ↔
        lowerHighsAndLows candles lookback := by
      simp only [getSwingRelationships, lowerHighsAndLows, isLowerHigh,
        isLowerLow, lastTwoHighs, lastTwoLows]
      split_ifs <;> simp_all
    by_cases h1 : (getSwingRelationships candles lookback).hasHigherHigh = some true ∧
        (getSwingRelationships candles lookback).hasHigherLow = some true
    · have hct : classifyTrend candles lookback = Trend.UP := by
        unfold classifyTrend
        rw [if_neg (by simp [he]), if_pos h1]
      have h1' := hup.mp h1
      refine ⟨by simp [hct, h1'], ?_, by simp [hct, h1']⟩
      rw [hct]
      simp only [show (Trend.UP = Trend.DOWN) = False by simp, false_iff]
      obtain ⟨a1, a2, a3, a4⟩ := h1'
      rintro ⟨b1, b2, b3, b4⟩
      linarith
    · by_cases h2 : (getSwingRelationships candles lookback).hasLowerHigh = some true ∧
          (getSwingRelationships candles lookback).hasLowerLow = some true
      · have hct : classifyTrend candles lookback = Trend.DOWN := by
          unfold classifyTrend
          rw [if_neg (by simp [he]), if_neg h1, if_pos h2]
        have h2' := hdown.mp h2
        have h1' : ¬ higherHighsAndLows candles lookback := fun hx => h1 (hup.mpr hx)
        exact ⟨by simp [hct, h1'], by simp [hct, h2'], by simp [hct, h2']⟩
      · have hct : classifyTrend candles lookback = Trend.RANGING := by
          unfold classifyTrend
          rw [if_neg (by simp [he]), if_neg h1, if_neg h2]
        have h1' : ¬ higherHighsAndLows candles lookback := fun hx => h1 (hup.mpr hx)
        have h2' : ¬ lowerHighsAndLows candles lookback := fun hx => h2 (hdown.mpr hx)
        exact ⟨by simp [hct, h1'], by simp [hct, h2'], by simp [hct, h1', h2']⟩

/-- Witness for C8: the empty candle list yields no swing points
(0 < MIN_SWING_POINTS), so `classifyTrend` returns RANGING. -/
theorem C8_classifyTrend_spec_witness : classifyTrend [] 3 = Trend.RANGING :=
  (C8_classifyTrend_spec [] 3).1 (by decide)

theorem structureForSL_demo :
    getStructureForSL candlesSwingLowOnly Direction.BUY =
      some ⟨3, "t3", 1, SwingType.LOW⟩ := by
  decide

/-- C3 counterexample: `calculateTradeSetup` never compares the entry
zone against the buffered anchor, so for a BUY with entryZone 0 and a
swing-low anchor at price 1 (XAU_USD buffer 0.20) the returned setup has
stopLoss 0.8 ≥ entryZone 0 and the ordering invariant fails. -/
theorem C3_counterexample :
    ∃ setup, calculateTradeSetup Direction.BUY 0 candlesSwingLowOnly Pair.XAU_USD =
        some setup ∧
      setup.direction = Direction.BUY ∧
      ¬ (setup.stopLoss < setup.entryZone ∧ setup.entryZone < setup.takeProfit) := by
  refine ⟨⟨Direction.BUY, 0, (1 : ℚ) - 0.20, 0 + (0 - ((1 : ℚ) - 0.20)),
      (0 - ((1 : ℚ) - 0.20)) * 10, ⟨3, "t3", 1, SwingType.LOW⟩⟩, ?_, rfl, ?_⟩
  · simp [calculateTradeSetup, structureForSL_demo, getSLBuffer, getPipMultiplier,
      PAIR_CONFIGS]
  · rintro ⟨h1, -⟩
    norm_num at h1

/-- C3 amended: every setup returned by `calculateTradeSetup` whose risk
is strictly positive (riskPips > 0) satisfies the ordering invariant:
for BUY stopLoss < entryZone < takeProfit, for SELL
takeProfit < entryZone < stopLoss.  (The unamended claim, quantified over
every entryZone, fails when the entry zone does not lie beyond the
buffered structure anchor — see the counterexample.) -/
theorem C3_ordering_amended (direction : Direction) (entryZone : ℚ)
    (candles : List Candle) (pair : Pair) (setup : TradeSetup)
    (h : calculateTradeSetup direction entryZone candles pair = some setup)
    (hrisk : 0 < setup.riskPips) :
    (setup.direction = Direction.BUY →
      setup.stopLoss < setup.entryZone ∧ setup.entryZone < setup.takeProfit) ∧
    (setup.direction = Direction.SELL →
      setup.takeProfit < setup.entryZone ∧ setup.entryZone < setup.stopLoss) := by
  have hmult : 0 < getPipMultiplier pair := by
    cases pair <;> norm_num [getPipMultiplier, PAIR_CONFIGS]
  unfold calculateTradeSetup at h
  cases hst : getStructureForSL candles direction with
  | none => rw [hst] at h; exact absurd h (by simp)
  | some sp =>
    rw [hst] at h
    cases direction with
    | BUY =>
      injection h with h
      subst h
      have hrisk' : 0 < (entryZone - (sp.price - getSLBuffer pair)) *
          getPipMultiplier pair := hrisk
      have hr : 0 < entryZone - (sp.price - getSLBuffer pair) := by
        rcases mul_pos_iff.mp hrisk' with ⟨ha, _⟩ | ⟨_, hb⟩
        · exact ha
        · linarith
      refine ⟨fun _ => ⟨?_, ?_⟩,
        fun hc => absurd (show Direction.BUY = Direction.SELL from hc) (by simp)⟩
      · show sp.price - getSLBuffer pair < entryZone
        linarith
      · show entryZone < entryZone + (entryZone - (sp.price - getSLBuffer pair))
        linarith
    | SELL =>
      injection h with h
      subst h
      have hrisk' : 0 < (sp.price + getSLBuffer pair - entryZone) *
          getPipMultiplier pair := hrisk
      have hr : 0 < sp.price + getSLBuffer pair - entryZone := by
        rcases mul_pos_iff.mp hrisk' with ⟨ha, _⟩ | ⟨_, hb⟩
        · exact ha
        · linarith
      refine ⟨fun hc => absurd (show Direction.SELL = Direction.BUY from hc) (by simp),
        fun _ => ⟨?_, ?_⟩⟩
      · show entryZone - (sp.price + getSLBuffer pair - entryZone) < entryZone
        linarith
      · show entryZone < sp.price + getSLBuffer pair
        linarith

/-- Witness for C3 (amended): a BUY at entryZone 2 over the same candle
list has risk 1.2 > 0 and the returned setup is properly ordered. -/
theorem C3_ordering_amended_witness :
    ((⟨Direction.BUY, 2, (1 : ℚ) - 0.20, 2 + (2 - ((1 : ℚ) - 0.20)),
        (2 - ((1 : ℚ) - 0.20)) * 10, ⟨3, "t3", 1, SwingType.LOW⟩⟩ : TradeSetup).direction =
          Direction.BUY →
      (⟨Direction.BUY, 2, (1 : ℚ) - 0.20, 2 + (2 - ((1 : ℚ) - 0.20)),
        (2 - ((1 : ℚ) - 0.20)) * 10, ⟨3, "t3", 1, SwingType.LOW⟩⟩ : TradeSetup).stopLoss <
        (⟨Direction.BUY, 2, (1 : ℚ) - 0.20, 2 + (2 - ((1 : ℚ) - 0.20)),
          (2 - ((1 : ℚ) - 0.20)) * 10, ⟨3, "t3", 1, SwingType.LOW⟩⟩ : TradeSetup).entryZone ∧
        (⟨Direction.BUY, 2, (1 : ℚ) - 0.20, 2 + (2 - ((1 : ℚ) - 0.20)),
          (2 - ((1 : ℚ) - 0.20)) * 10, ⟨3, "t3", 1, SwingType.LOW⟩⟩ : TradeSetup).entryZone <
        (⟨Direction.BUY, 2, (1 : ℚ) - 0.20, 2 + (2 - ((1 : ℚ) - 0.20)),
          (2 - ((1 : ℚ) - 0.20)) * 10, ⟨3, "t3", 1, SwingType.LOW⟩⟩ : TradeSetup).takeProfit) ∧
    ((⟨Direction.BUY, 2, (1 : ℚ) - 0.20, 2 + (2 - ((1 : ℚ) - 0.20)),
        (2 - ((1 : ℚ) - 0.20)) * 10, ⟨3, "t3", 1, SwingType.LOW⟩⟩ : TradeSetup).direction =
          Direction.SELL →
      (⟨Direction.BUY, 2, (1 : ℚ) - 0.20, 2 + (2 - ((1 : ℚ) - 0.20)),
        (2 - ((1 : ℚ) - 0.20)) * 10, ⟨3, "t3", 1, SwingType.LOW⟩⟩ : TradeSetup).takeProfit <
        (⟨Direction.BUY, 2, (1 : ℚ) - 0.20, 2 + (2 - ((1 : ℚ) - 0.20)),
          (2 - ((1 : ℚ) - 0.20)) * 10, ⟨3, "t3", 1, SwingType.LOW⟩⟩ : TradeSetup).entryZone ∧
        (⟨Direction.BUY, 2, (1 : ℚ) - 0.20, 2 + (2 - ((1 : ℚ) - 0.20)),
          (2 - ((1 : ℚ) - 0.20)) * 10, ⟨3, "t3", 1, SwingType.LOW⟩⟩ : TradeSetup).entryZone <
        (⟨Direction.BUY, 2, (1 : ℚ) - 0.20, 2 + (2 - ((1 : ℚ) - 0.20)),
          (2 - ((1 : ℚ) - 0.20)) * 10, ⟨3, "t3", 1, SwingType.LOW⟩⟩ : TradeSetup).stopLoss) :=
  C3_ordering_amended Direction.BUY 2 candlesSwingLowOnly Pair.XAU_USD _
    (by simp [calculateTradeSetup, structureForSL_demo, getSLBuffer, getPipMultiplier,
      PAIR_CONFIGS])
    (by show (0 : ℚ) < (2 - ((1 : ℚ) - 0.20)) * 10
        norm_num)

/-- C4: `calculateTradeSetup` returns none iff no structure anchor exists
(no swing LOW for BUY / no swing HIGH for SELL); any returned setup has
its stop at the anchor price minus (BUY) / plus (SELL) the pair's buffer
and an exact 1:1 reward-to-risk: |takeProfit − entryZone| =
|entryZone − stopLoss|. -/
theorem C4_calculateTradeSetup_spec (direction : Direction) (entryZone : ℚ)
    (candles : List Candle) (pair : Pair) :
    (calculateTradeSetup direction entryZone candles pair = none ↔
      (match direction with
       | Direction.BUY => findSwingLows candles = []
       | Direction.SELL => findSwingHighs candles = [])) ∧
    (∀ setup, calculateTradeSetup direction entryZone candles pair = some setup →
      ∃ anchor, getStructureForSL candles direction = some anchor ∧
        setup.stopLoss = (match direction with
          | Direction.BUY => anchor.price - getSLBuffer pair
          | Direction.SELL => anchor.price + getSLBuffer pair) ∧
        |setup.takeProfit - setup.entryZone| = |setup.entryZone - setup.stopLoss| ∧
        setup.entryZone = entryZone ∧ setup.direction = direction) := by
  constructor
  · cases direction with
    | BUY =>
      simp only [calculateTradeSetup, getStructureForSL, getMostRecentSwingLow]
      cases hl : (findSwingLows candles).getLast? with
      | none =>
        rw [List.getLast?_eq_none_iff] at hl
        simp [hl]
      | some sp =>
        have hne : findSwingLows candles ≠ [] := by
          intro hnil
          rw [hnil] at hl
          simp at hl
        simp [hl, hne]
    | SELL =>
      simp only [calculateTradeSetup, getStructureForSL, getMostRecentSwingHigh]
      cases hh : (findSwingHighs candles).getLast? with
      | none =>
        rw [List.getLast?_eq_none_iff] at hh
        simp [hh]
      | some sp =>
        have hne : findSwingHighs candles ≠ [] := by
          intro hnil
          rw [hnil] at hh
          simp at hh
        simp [hh, hne]
  · intro setup h
    unfold calculateTradeSetup at h
    cases hst : getStructureForSL candles direction with
    | none => rw [hst] at h; exact absurd h (by simp)
    | some sp =>
      rw [hst] at h
      refine ⟨sp, rfl, ?_⟩
      cases direction with
      | BUY =>
        injection h with h
        subst h
        refine ⟨rfl, ?_, rfl, rfl⟩
        show |entryZone + (entryZone - (sp.price - getSLBuffer pair)) - entryZone| =
          |entryZone - (sp.price - getSLBuffer pair)|
        rw [show entryZone + (entryZone - (sp.price - getSLBuffer pair)) - entryZone =
          entryZone - (sp.price - getSLBuffer pair) from by ring]
      | SELL =>
        injection h with h
        subst h
        refine ⟨rfl, ?_, rfl, rfl⟩
        show |entryZone - (sp.price + getSLBuffer pair - entryZone) - entryZone| =
          |entryZone - (sp.price + getSLBuffer pair)|
        rw [show entryZone - (sp.price + getSLBuffer pair - entryZone) - entryZone =
          entryZone - (sp.price + getSLBuffer pair) from by ring]

/-- Witness for C4: on an empty candle list there is no swing LOW, so a
BUY setup calculation returns none. -/
theorem C4_calculateTradeSetup_spec_witness :
    calculateTradeSetup Direction.BUY 0 [] Pair.EUR_USD = none :=
  (C4_calculateTradeSetup_spec Direction.BUY 0 [] Pair.EUR_USD).1.mpr (by decide)

theorem string_append_ne_empty (a b : String) (h : a ≠ "") : a ++ b ≠ "" := by
  intro hc
  apply h
  apply String.ext
  have hd : (a ++ b).data = ("" : String).data := congrArg String.data hc
  rw [String.data_append] at hd
  exact (List.append_eq_nil.mp hd).1

theorem append4_ne_empty (a b c d e : String) (h : a ≠ "") :
    a ++ b ++ c ++ d ++ e ≠ "" :=
  string_append_ne_empty _ _ (string_append_ne_empty _ _
    (string_append_ne_empty _ _ (string_append_ne_empty _ _ h)))

/-- C2: `checkOutcome` returns, for BUY, WIN iff high ≥ takeProfit, else
LOSS iff low ≤ stopLoss, else OPEN; for SELL, WIN iff low ≤ takeProfit,
else LOSS iff high ≥ stopLoss, else OPEN; and when both the target and the
stop condition hold on the same candle the result is WIN, never LOSS. -/
theorem C2_checkOutcome_spec (setup : TradeSetup) (hi lo : ℚ) :
    (setup.direction = Direction.BUY →
      ((checkOutcome setup hi lo = Outcome.WIN ↔ setup.takeProfit ≤ hi) ∧
       (checkOutcome setup hi lo = Outcome.LOSS ↔ hi < setup.takeProfit ∧ lo ≤ setup.stopLoss) ∧
       (checkOutcome setup hi lo = Outcome.OPEN ↔ hi < setup.takeProfit ∧ setup.stopLoss < lo))) ∧
    (setup.direction = Direction.SELL →
      ((checkOutcome setup hi lo = Outcome.WIN ↔ lo ≤ setup.takeProfit) ∧
       (checkOutcome setup hi lo = Outcome.LOSS ↔ setup.takeProfit < lo ∧ setup.stopLoss ≤ hi) ∧
       (checkOutcome setup hi lo = Outcome.OPEN ↔ setup.takeProfit < lo ∧ hi < setup.stopLoss))) ∧
    ((if setup.direction = Direction.BUY then setup.takeProfit ≤ hi ∧ lo ≤ setup.stopLoss
      else lo ≤ setup.takeProfit ∧ setup.stopLoss ≤ hi) →
      checkOutcome setup hi lo = Outcome.WIN) := by
  rcases setup with ⟨d, e, sl, tp, r, sp⟩
  cases d <;>
    simp only [checkOutcome, if_true, if_false] <;>
    split_ifs <;> simp_all <;> linarith

/-- Witness for C2 at End-to-end scenario D: a TRIGGERED BUY with
stopLoss 1.0948 and takeProfit 1.1050 against candle high 1.1051 /
low 1.0947 (both conditions hold) resolves to WIN. -/
theorem C2_checkOutcome_spec_witness :
    checkOutcome ⟨Direction.BUY, 1.0999, 1.0948, 1.1050, 51, default⟩ 1.1051 1.0947 =
      Outcome.WIN :=
  (C2_checkOutcome_spec ⟨Direction.BUY, 1.0999, 1.0948, 1.1050, 51, default⟩ 1.1051 1.0947).2.2
    (by norm_num)

/-- C5: `detectWickless` produces a valid signal iff (trend UP, bullish
body, no bottom wick up to ε, body at least ε: a BUY at the candle's low)
or (trend DOWN, bearish body, no top wick up to ε, body at least ε: a
SELL at the candle's high); no signal for RANGING trend or doji body. -/
theorem C5_detectWickless_spec (candle : Candle) (pair : Pair) (trend : Trend) :
    ((detectWickless candle pair trend).isValid = true ↔
      ((trend = Trend.UP ∧ candle.open_ < candle.close ∧
          candle.open_ - getTolerance pair ≤ candle.low ∧
          getTolerance pair ≤ |candle.close - candle.open_|) ∨
       (trend = Trend.DOWN ∧ candle.close < candle.open_ ∧
          candle.high ≤ candle.open_ + getTolerance pair ∧
          getTolerance pair ≤ |candle.close - candle.open_|))) ∧
    (trend = Trend.UP → candle.open_ < candle.close →
        candle.open_ - getTolerance pair ≤ candle.low →
        getTolerance pair ≤ |candle.close - candle.open_| →
        detectWickless candle pair trend =
          ⟨true, some Direction.BUY, some candle.low, some candle⟩) ∧
    (trend = Trend.DOWN → candle.close < candle.open_ →
        candle.high ≤ candle.open_ + getTolerance pair →
        getTolerance pair ≤ |candle.close - candle.open_| →
        detectWickless candle pair trend =
          ⟨true, some Direction.SELL, some candle.high, some candle⟩) ∧
    (trend = Trend.RANGING → detectWickless candle pair trend = noSignal) ∧
    (|candle.close - candle.open_| < getTolerance pair →
        detectWickless candle pair trend = noSignal) := by
  cases trend <;>
    simp only [detectWickless, noSignal] <;>
    split_ifs <;> simp_all [noSignal] <;> linarith

/-- Witness for C5: trend UP, a bullish candle with its low within
ε = 0.00002 of the open (open 1.1000, high 1.1010, low 1.09999,
close 1.1008) yields a valid BUY signal with entryZone = the low. -/
theorem C5_detectWickless_spec_witness :
    detectWickless ⟨"A", 1.1000, 1.1010, 1.09999, 1.1008, true⟩ Pair.EUR_USD Trend.UP =
      ⟨true, some Direction.BUY, some 1.09999, some ⟨"A", 1.1000, 1.1010, 1.09999, 1.1008, true⟩⟩ :=
  (C5_detectWickless_spec ⟨"A", 1.1000, 1.1010, 1.09999, 1.1008, true⟩ Pair.EUR_USD Trend.UP).2.1
    rfl (by norm_num)
    (by show (1.1000 : ℚ) - getTolerance Pair.EUR_USD ≤ 1.09999
        norm_num [getTolerance, PAIR_CONFIGS])
    (by show getTolerance Pair.EUR_USD ≤ |(1.1008 : ℚ) - 1.1000|
        rw [abs_of_nonneg (by norm_num : (0 : ℚ) ≤ (1.1008 : ℚ) - 1.1000)]
        norm_num [getTolerance, PAIR_CONFIGS])

/-- C9: `validateSetup` is invalid exactly when riskPips < minPips, or
riskPips > maxPips, or the entry does not sit strictly between stop and
target for the setup's direction; every invalid result carries a
non-empty reason string; boundary risks (riskPips = minPips or maxPips)
are accepted; the function is total (never throws). -/
theorem C9_validateSetup_spec (setup : TradeSetup) (pair : Pair) (minPips maxPips : ℚ) :
    ((validateSetup setup pair minPips maxPips).valid = false ↔
      (setup.riskPips < minPips ∨ maxPips < setup.riskPips ∨ ¬ entryBetween setup)) ∧
    ((validateSetup setup pair minPips maxPips).reason ≠ "") ∧
    ((validateSetup setup pair minPips maxPips).valid = true ↔
      (minPips ≤ setup.riskPips ∧ setup.riskPips ≤ maxPips ∧ entryBetween setup)) := by
  rcases setup with ⟨d, e, sl, tp, r, sp⟩
  refine ⟨?_, ?_, ?_⟩ <;>
    cases d <;>
    simp only [validateSetup, entryBetween] <;>
    split_ifs <;>
    simp_all <;>
    first
      | exact append4_ne_empty _ _ _ _ _ (by decide)
      | (constructor <;> intro <;> simp_all <;> linarith)
      | linarith
      | tauto

/-- Witness for C9: a BUY setup with risk exactly at the minimum band
edge (5 pips) and properly ordered levels validates as valid. -/
theorem C9_validateSetup_spec_witness :
    (validateSetup ⟨Direction.BUY, 1.0999, 1.0994, 1.1004, 5, default⟩
        Pair.EUR_USD 5 50).valid = true :=
  ((C9_validateSetup_spec ⟨Direction.BUY, 1.0999, 1.0994, 1.1004, 5, default⟩
      Pair.EUR_USD 5 50).2.2).mpr
    (by norm_num [entryBetween])

theorem monitorStep_isTriggered_iff (s : ActiveSetup) (c : Candle) :
    ((match s.direction with
      | Direction.BUY => decide (c.low ≤ s.entryZone)
      | Direction.SELL => decide (s.entryZone ≤ c.high)) = true) ↔
      triggerCondition s c := by
  unfold triggerCondition
  cases s.direction <;> simp

theorem monitorSetups_foldl (newCandle : Candle) (setups : List ActiveSetup) :
    ∀ t e a : List ActiveSetup,
      setups.foldl (monitorStep newCandle) ⟨t, e, a⟩ =
        ⟨t ++ setups.filterMap (triggeredUpdate newCandle),
         e ++ setups.filterMap (expiredUpdate newCandle),
         a ++ setups.filterMap (stillActiveUpdate newCandle)⟩ := by
  induction setups with
  | nil => intro t e a; simp
  | cons s rest ih =>
    intro t e a
    rw [List.foldl_cons]
    by_cases hw : s.status = SetupStatus.WAITING
    · by_cases htr : triggerCondition s newCandle
      · have hstep : monitorStep newCandle ⟨t, e, a⟩ s =
            ⟨t ++ [{ s with
              candlesElapsed := s.candlesElapsed + 1
              status := SetupStatus.TRIGGERED }], e, a⟩ := by
          unfold monitorStep
          rw [if_neg (by simp [hw]), if_pos ((monitorStep_isTriggered_iff s newCandle).mpr htr)]
        rw [hstep, ih]
        simp [List.filterMap_cons, triggeredUpdate, expiredUpdate, stillActiveUpdate,
          hw, htr]
      · by_cases hexp : MAX_CANDLES_FOR_ENTRY ≤ s.candlesElapsed + 1
        · have hstep : monitorStep newCandle ⟨t, e, a⟩ s =
              ⟨t, e ++ [{ s with
                candlesElapsed := s.candlesElapsed + 1
                status := SetupStatus.EXPIRED }], a⟩ := by
            unfold monitorStep
            rw [if_neg (by simp [hw]),
              if_neg (by rw [monitorStep_isTriggered_iff]; exact htr),
              if_pos (by simpa [isSetupExpired] using hexp)]
          rw [hstep, ih]
          simp [List.filterMap_cons, triggeredUpdate, expiredUpdate, stillActiveUpdate,
            hw, htr, hexp]
        · have hstep : monitorStep newCandle ⟨t, e, a⟩ s =
              ⟨t, e, a ++ [{ s with candlesElapsed := s.candlesElapsed + 1 }]⟩ := by
            unfold monitorStep
            rw [if_neg (by simp [hw]),
              if_neg (by rw [monitorStep_isTriggered_iff]; exact htr),
              if_neg (by simpa [isSetupExpired] using hexp)]
          rw [hstep, ih]
          have hlt : s.candlesElapsed + 1 < MAX_CANDLES_FOR_ENTRY := by omega
          simp [List.filterMap_cons, triggeredUpdate, expiredUpdate, stillActiveUpdate,
            hw, htr, hlt]
    · have hstep : monitorStep newCandle ⟨t, e, a⟩ s = ⟨t, e, a⟩ := by
        unfold monitorStep
        rw [if_pos hw]
      rw [hstep, ih]
      simp [List.filterMap_cons, triggeredUpdate, expiredUpdate, stillActiveUpdate, hw]

/-- C1: `monitorSetups` routes every WAITING setup with its candle count
incremented by exactly 1: to `triggered` iff the candle's low reaches the
entry zone (BUY) / high reaches it (SELL) — with no expiry condition, so
a triggering candle at the 10th count still triggers; to `expired` iff
not triggered and the incremented count reaches 10; to `stillActive`
otherwise.  Setups already TRIGGERED or EXPIRED appear in none of the
three lists and are left untouched (no error). -/
theorem C1_monitorSetups_spec (setups : List ActiveSetup) (newCandle : Candle) :
    monitorSetups setups newCandle =
      ⟨setups.filterMap (triggeredUpdate newCandle),
       setups.filterMap (expiredUpdate newCandle),
       setups.filterMap (stillActiveUpdate newCandle)⟩ := by
  unfold monitorSetups
  rw [monitorSetups_foldl newCandle setups [] [] []]
  simp

theorem checkRetracementLoop_spec (direction : Direction) (entryZone : ℚ) :
    ∀ (l : List Candle) (i : ℕ),
      ((checkRetracementLoop direction entryZone l i).triggered = false →
        checkRetracementLoop direction entryZone l i =
          ⟨false, none, none, i + l.length⟩ ∧
        ∀ j < l.length, (l.getD j default).complete = true →
          ¬ retracementHit direction entryZone (l.getD j default)) ∧
      ((checkRetracementLoop direction entryZone l i).triggered = true →
        ∃ k, k < l.length ∧ (l.getD k default).complete = true ∧
          retracementHit direction entryZone (l.getD k default) ∧
          checkRetracementLoop direction entryZone l i =
            ⟨true, some entryZone, some (l.getD k default), i + k + 1⟩ ∧
          ∀ j < k, (l.getD j default).complete = true →
            ¬ retracementHit direction entryZone (l.getD j default)) := by
  intro l
  induction l with
  | nil =>
    intro i
    constructor
    · intro _
      exact ⟨by simp [checkRetracementLoop], by simp⟩
    · intro ht
      simp [checkRetracementLoop] at ht
  | cons c rest ih =>
    intro i
    by_cases hc : c.complete = true
    · by_cases hhit : retracementHit direction entryZone c
      · have hr : checkRetracementLoop direction entryZone (c :: rest) i =
            ⟨true, some entryZone, some c, i + 1⟩ := by
          unfold checkRetracementLoop
          rw [if_neg (by simp [hc]),
            if_pos (by unfold retracementHit at hhit
                       cases direction <;> simpa using hhit)]
        constructor
        · intro hf
          rw [hr] at hf
          simp at hf
        · intro _
          refine ⟨0, by simp, by simpa using hc, by simpa using hhit, ?_, ?_⟩
          · rw [hr]
            simp
          · intro j hj
            exact absurd hj (by omega)
      · have hr : checkRetracementLoop direction entryZone (c :: rest) i =
            checkRetracementLoop direction entryZone rest (i + 1) := by
          simp only [checkRetracementLoop]
          rw [if_neg (by simp [hc]),
            if_neg (by unfold retracementHit at hhit
                       cases direction <;> simpa using hhit)]
        rw [hr]
        obtain ⟨ihf, iht⟩ := ih (i + 1)
        constructor
        · intro hf
          obtain ⟨heq, hall⟩ := ihf hf
          refine ⟨by rw [heq]; simp; omega, ?_⟩
          intro j hj hcomp
          cases j with
          | zero => simpa using hhit
          | succ n =>
            exact hall n (by simpa using hj) (by simpa using hcomp)
        · intro ht
          obtain ⟨k, hk, hkc, hkh, heq, hprev⟩ := iht ht
          refine ⟨k + 1, by simpa using hk, by simpa using hkc, by simpa using hkh,
            by rw [heq]; simp; omega, ?_⟩
          intro j hj hcomp
          cases j with
          | zero => simpa using hhit
          | succ n =>
            exact hprev n (by omega) (by simpa using hcomp)
    · have hr : checkRetracementLoop direction entryZone (c :: rest) i =
          checkRetracementLoop direction entryZone rest (i + 1) := by
        simp only [checkRetracementLoop]
        rw [if_pos (by simp [hc])]
      rw [hr]
      obtain ⟨ihf, iht⟩ := ih (i + 1)
      constructor
      · intro hf
        obtain ⟨heq, hall⟩ := ihf hf
        refine ⟨by rw [heq]; simp; omega, ?_⟩
        intro j hj hcomp
        cases j with
        | zero => exact absurd (by simpa using hcomp) hc
        | succ n =>
          exact hall n (by simpa using hj) (by simpa using hcomp)
      · intro ht
        obtain ⟨k, hk, hkc, hkh, heq, hprev⟩ := iht ht
        refine ⟨k + 1, by simpa using hk, by simpa using hkc, by simpa using hkh,
          by rw [heq]; simp; omega, ?_⟩
        intro j hj hcomp
        cases j with
        | zero => exact absurd (by simpa using hcomp) hc
        | succ n =>
          exact hprev n (by omega) (by simpa using hcomp)

/-- C10: `checkRetracement` examines only the first 10 candles; when it
does not trigger, `candlesElapsed` is the length of the truncated list
(incomplete candles included); when it triggers, the trigger candle is
the first complete candle at a zero-based position `i` of the truncated
list satisfying the direction's entry condition, and `candlesElapsed`
is `i + 1`, counting any skipped incomplete candles before it. -/
theorem C10_checkRetracement_spec (direction : Direction) (entryZone : ℚ)
    (subsequentCandles : List Candle) :
    (checkRetracement direction entryZone subsequentCandles =
      checkRetracement direction entryZone
        (subsequentCandles.take MAX_CANDLES_FOR_ENTRY)) ∧
    ((checkRetracement direction entryZone subsequentCandles).triggered = false →
      checkRetracement direction entryZone subsequentCandles =
        ⟨false, none, none, (subsequentCandles.take MAX_CANDLES_FOR_ENTRY).length⟩) ∧
    ((checkRetracement direction entryZone subsequentCandles).triggered = true →
      ∃ i, i < (subsequentCandles.take MAX_CANDLES_FOR_ENTRY).length ∧
        ((subsequentCandles.take MAX_CANDLES_FOR_ENTRY).getD i default).complete = true ∧
        retracementHit direction entryZone
          ((subsequentCandles.take MAX_CANDLES_FOR_ENTRY).getD i default) ∧
        checkRetracement direction entryZone subsequentCandles =
          ⟨true, some entryZone,
            some ((subsequentCandles.take MAX_CANDLES_FOR_ENTRY).getD i default),
            i + 1⟩ ∧
        ∀ j < i,
          ((subsequentCandles.take MAX_CANDLES_FOR_ENTRY).getD j default).complete = true →
          ¬ retracementHit direction entryZone
            ((subsequentCandles.take MAX_CANDLES_FOR_ENTRY).getD j default)) := by
  obtain ⟨hf, ht⟩ := checkRetracementLoop_spec direction entryZone
    (subsequentCandles.take MAX_CANDLES_FOR_ENTRY) 0
  refine ⟨?_, ?_, ?_⟩
  · simp [checkRetracement, List.take_take]
  · intro h
    have := hf h
    rw [checkRetracement] at *
    simpa using this.1
  · intro h
    obtain ⟨k, hk, hkc, hkh, heq, hprev⟩ := ht (by simpa [checkRetracement] using h)
    exact ⟨k, hk, hkc, hkh, by simpa [checkRetracement] using heq, hprev⟩

/-- Witness for C10: a single non-triggering complete candle (BUY,
entry zone 5, candle low 7) yields no trigger and `candlesElapsed` 1,
the length of the truncated list. -/
theorem C10_checkRetracement_spec_witness :
    checkRetracement Direction.BUY 5 [⟨"c1", 6, 8, 7, 7, true⟩] =
      ⟨false, none, none, 1⟩ :=
  (C10_checkRetracement_spec Direction.BUY 5 [⟨"c1", 6, 8, 7, 7, true⟩]).2.1 (by decide)

/-- C6 counterexample: a setup for (EUR_USD, "2024-01-01T00:00:00Z") is
created and detected as existing; after a triggering candle transitions
it to TRIGGERED, `processNewCandle` removes it from `activeSetups`, and
`hasExistingSetup` no longer detects the key — so a second setup for the
same signal candle would not be rejected, contradicting the claim that
terminal setups still deduplicate. -/
theorem C6_counterexample :
    hasExistingSetup (addSetup emptyManager demoSetup) Pair.EUR_USD
      "2024-01-01T00:00:00Z" = true ∧
    hasExistingSetup
      (processNewCandle (addSetup emptyManager demoSetup) Pair.EUR_USD Timeframe.M15
        demoTriggerCandle demoGenId "now").manager
      Pair.EUR_USD "2024-01-01T00:00:00Z" = false := by
  decide

theorem mapSet_mem_values {α : Type} (m : List (String × α)) (k : String) (v : α) :
    v ∈ mapValues (mapSet m k v) := by
  unfold mapSet mapValues
  split
  · next hany =>
    rcases List.any_eq_true.mp hany with ⟨p, hp, hpk⟩
    rw [List.map_map]
    refine List.mem_map.mpr ⟨p, hp, ?_⟩
    simp only [Function.comp_apply, if_pos (by simpa using hpk)]
  · simp

/-- C6 amended: `hasExistingSetup` deduplicates only against the setups
currently held in the `activeSetups` map: it returns true iff some setup
in the map carries the `(pair, signalCandleTime)` key, and a freshly
added setup is always detected.  Setups that `processNewCandle` has
transitioned to TRIGGERED or EXPIRED are deleted from the map, so their
keys are no longer detected (witnessed by the counterexample) and a
duplicate could be created for them. -/
theorem C6_dedup_amended (m : SignalManager) (pair : Pair) (time : String) :
    (hasExistingSetup m pair time = true ↔
      ∃ s ∈ getActiveSetups m, s.pair = pair ∧ s.signalCandleTime = time) ∧
    (∀ setup : ActiveSetup, setup.pair = pair → setup.signalCandleTime = time →
      hasExistingSetup (addSetup m setup) pair time = true) := by
  constructor
  · simp [hasExistingSetup, List.any_eq_true]
  · intro setup hp ht
    have hv : setup ∈ getActiveSetups (addSetup m setup) :=
      mapSet_mem_values m.activeSetups setup.id setup
    exact List.any_eq_true.mpr ⟨setup, hv, by simp [hp, ht]⟩

/-- Witness for C6 (amended): adding `demoSetup` to the empty manager
makes its key detected. -/
theorem C6_dedup_amended_witness :
    hasExistingSetup (addSetup emptyManager demoSetup) Pair.EUR_USD
      "2024-01-01T00:00:00Z" = true :=
  (C6_dedup_amended emptyManager Pair.EUR_USD "2024-01-01T00:00:00Z").2
    demoSetup rfl rfl

end Wickless
